import Mathlib

/-
Shallow embedding of `src/simple_alpaca.py` (class `SimpleAlpaca`), a thin
wrapper around the alpaca-py brokerage SDK, together with theorems settling
the specification claims about it.

Modelling conventions:
- Python `str` is Lean `String`; only ASCII-relevant behaviour of
  `str.lower`, `str.isdigit`, `str.isalpha` is exercised by the wrapper, and
  it is modelled with `Char.toLower`, `Char.isDigit`, `Char.isAlpha`.
- Python `float` arguments are modelled as rationals; Python float
  truthiness (`0.0` is falsy, everything else truthy) becomes `q ≠ 0`.
- Fallible code returns `Except LocalErr _`; `LocalErr` covers exactly the
  exceptions raised by statements written in the wrapper itself
  (`raise ValueError`, `int` on a digitless string, the timeframe dict
  lookup, `datetime.fromisoformat`).  Errors raised inside SDK code the
  wrapper merely calls (pydantic validation, enum conversion, transport)
  are outside `LocalErr`.
- The SDK enum and request types are mirrored as plain Lean inductives and
  structures holding the fields the wrapper sets.
-/

namespace SimpleAlpaca

/-- Mirror of `alpaca.trading.enums.OrderSide`. -/
inductive OrderSide where
  | BUY
  | SELL
deriving DecidableEq, Repr

/-- Mirror of `alpaca.trading.enums.OrderType` (members the wrapper uses). -/
inductive OrderType where
  | MARKET
  | LIMIT
  | STOP
  | STOP_LIMIT
  | TRAILING_STOP
deriving DecidableEq, Repr

/-- Mirror of `alpaca.trading.enums.TimeInForce` with its raw string values. -/
inductive TimeInForce where
  | day
  | gtc
  | opg
  | cls
  | ioc
  | fok
deriving DecidableEq, Repr

/-- Mirror of `alpaca.data.timeframe.TimeFrameUnit`. -/
inductive TimeFrameUnit where
  | Minute
  | Hour
  | Day
  | Week
  | Month
deriving DecidableEq, Repr

/-- Mirror of `alpaca.data.timeframe.TimeFrame`: an amount and a unit.
(The SDK performs its own range validation; that code is SDK-side and is
not part of the wrapper being modelled.) -/
structure TimeFrame where
  amount : Int
  unit : TimeFrameUnit
deriving DecidableEq, Repr

/-- Exceptions raised by statements written in the wrapper itself:
Python `ValueError` (with its message) and `KeyError` (with the missing
key), the only exception kinds the wrapper code can raise locally. -/
inductive LocalErr where
  | valueError (msg : String)
  | keyError (key : String)
deriving DecidableEq, Repr

/-- ASCII model of Python `str.lower`. -/
def pyLower (s : String) : String :=
  String.mk (s.toList.map Char.toLower)

/-- Model of Python `s.startswith("b")` for the one-character needle used by
`_side`: true iff the first character is `b`. -/
def pyStartsWithB (s : String) : Bool :=
  match s.toList with
  | [] => false
  | c :: _ => c = 'b'

/-- Value of a nonempty decimal digit string, as computed by Python `int`. -/
def digitsToNat (ds : List Char) : Nat :=
  ds.foldl (fun n c => 10 * n + (c.toNat - '0'.toNat)) 0

/-- Embedding of `SimpleAlpaca._side`:
`OrderSide.BUY if side.lower().startswith("b") else OrderSide.SELL`. -/
def _side (side : String) : OrderSide :=
  if pyStartsWithB (pyLower side) then OrderSide.BUY else OrderSide.SELL

/-- The `TimeInForce(value)` enum lookup of the SDK: succeeds exactly on the
raw values, otherwise the SDK enum machinery raises. -/
def TimeInForce.ofValue (s : String) : Option TimeInForce :=
  if s = "day" then some .day
  else if s = "gtc" then some .gtc
  else if s = "opg" then some .opg
  else if s = "cls" then some .cls
  else if s = "ioc" then some .ioc
  else if s = "fok" then some .fok
  else none

/-- Embedding of `SimpleAlpaca._tif`: an already-typed `TimeInForce` is
returned unchanged, a string is lower-cased and converted through the enum
(`none` stands for the SDK-side enum conversion failure). -/
def _tif (tif : String ⊕ TimeInForce) : Option TimeInForce :=
  match tif with
  | Sum.inr t => some t
  | Sum.inl s => TimeInForce.ofValue (pyLower s)

/-- The lookup table literal inside `_tf_parse`:
`{"min": Minute, "hour": Hour, "day": Day}`. -/
def tfUnitTable (key : String) : Option TimeFrameUnit :=
  if key = "min" then some .Minute
  else if key = "hour" then some .Hour
  else if key = "day" then some .Day
  else none

/-- The alphabetic characters of a timeframe string, lower-cased:
`''.join(filter(str.isalpha, timeframe)).lower()` in `_tf_parse`. -/
def unitToken (s : String) : String :=
  String.mk ((s.toList.filter Char.isAlpha).map Char.toLower)

/-- Embedding of `SimpleAlpaca._tf_parse`.  For a string: extract the digit
run (Python `int` raises `ValueError` when there is none), extract and
lower-case the alphabetic run, look its first three characters up in the
unit table (`KeyError` when absent), and build the timeframe.  For an int:
build the timeframe from the given amount and the `unit` argument (whose
Python default is `TimeFrameUnit.Minute`). -/
def _tf_parse : String ⊕ Int → TimeFrameUnit → Except LocalErr TimeFrame
  | Sum.inl s, _ =>
      let ds := s.toList.filter Char.isDigit
      if ds.isEmpty then
        Except.error (LocalErr.valueError "invalid literal for int() with base 10")
      else
        let num := digitsToNat ds
        let key := String.mk ((unitToken s).toList.take 3)
        match tfUnitTable key with
        | some u => Except.ok ⟨(num : Int), u⟩
        | none => Except.error (LocalErr.keyError key)
  | Sum.inr n, unit => Except.ok ⟨n, unit⟩

/-- Model of the Python values `_as_json` can receive: the primitives and
containers it tests with `isinstance`, plus structured objects.  A `pyObj`
carries what the three `hasattr` probes of `_as_json` can observe:
`md` is the result of calling `model_dump` when that attribute exists,
`it` is the key/value list produced by `dict(obj).items()` when the object
is iterable and that conversion succeeds (`none` covers both a missing
`__iter__` and a raising `dict(obj)`, which the code swallows alike), and
`ad` is the `__dict__` attribute dictionary when present.  Dict keys are
taken to be strings; `_as_json` never transforms keys. -/
inductive PyVal where
  | pyNone
  | pyBool (b : Bool)
  | pyInt (n : Int)
  | pyFloat (q : Rat)
  | pyStr (s : String)
  | pyList (xs : List PyVal)
  | pyDict (kvs : List (String × PyVal))
  | pyObj (md : Option PyVal) (it : Option (List (String × PyVal)))
      (ad : Option (List (String × PyVal)))

/-- Embedding of `SimpleAlpaca._as_json` with the `self.raw` flag passed
explicitly.  Branches in source order: return unchanged when `raw`;
return the `model_dump()` result when that attribute exists; pass
primitives, dicts and lists through unchanged; flatten an iterable object
into a dict, recursing on the values only; finally return `__dict__` when
present, else the object itself.  Only `pyObj` can carry the probed
attributes, so the `hasattr(obj, "model_dump")` test placed before the
`isinstance` test coincides with this match order. -/
def asJson (raw : Bool) : PyVal → PyVal
  | PyVal.pyObj md it ad =>
      if raw then PyVal.pyObj md it ad
      else
        match md, it, ad with
        | some d, _, _ => d
        | none, some kvs, _ =>
            PyVal.pyDict (kvs.attach.map (fun p => (p.1.1, asJson raw p.1.2)))
        | none, none, some d => PyVal.pyDict d
        | none, none, none => PyVal.pyObj none none none
  | v => v
decreasing_by
  obtain ⟨⟨k, v⟩, hm⟩ := p
  have h1 := List.sizeOf_lt_of_mem hm
  simp only [Prod.mk.sizeOf_spec] at h1
  simp only [PyVal.pyObj.sizeOf_spec, Option.some.sizeOf_spec, Option.none.sizeOf_spec]
  omega

/-- Python truthiness of an optional float argument: `None` and `0.0` are
falsy, every other float is truthy. -/
def truthyQ : Option Rat → Bool
  | none => false
  | some q => q != 0

/-- The fields of `alpaca.trading.requests.OrderRequest` that
`SimpleAlpaca.trailing_stop` sets.  `time_in_force` stores the result of
`_tif`, where `none` stands for the SDK-side enum conversion failure. -/
structure OrderRequest where
  symbol : String
  qty : Rat
  side : OrderSide
  type : OrderType
  trail_percent : Option Rat
  trail_price : Option Rat
  time_in_force : Option TimeInForce
deriving DecidableEq, Repr

/-- Embedding of `SimpleAlpaca.trailing_stop`: raise
`ValueError("Specify trail_percent or trail_price.")` when
`not (trail_percent or trail_price)` under Python truthiness; otherwise
build and submit the trailing-stop order request. -/
def trailing_stop (symbol : String) (qty : Rat)
    (trail_percent trail_price : Option Rat)
    (side : String) (tif : String ⊕ TimeInForce) :
    Except LocalErr OrderRequest :=
  if !(truthyQ trail_percent || truthyQ trail_price) then
    Except.error (LocalErr.valueError "Specify trail_percent or trail_price.")
  else
    Except.ok
      { symbol := symbol
        qty := qty
        side := _side side
        type := OrderType.TRAILING_STOP
        trail_percent := trail_percent
        trail_price := trail_price
        time_in_force := _tif tif }

/-- A `StockDataStream` handle as `_ensure_ws` creates it:
`StockDataStream(self._api_key, self._secret)`. -/
structure WSHandle where
  apiKey : String
  secret : String
deriving DecidableEq, Repr

/-- The mutable attributes `__init__` stores on a `SimpleAlpaca` instance:
the `raw` flag, the paper-mode flag held by the trading client, the
credentials kept for the stream, and the lazily created stream handle
`_ws`.  The two REST delegate clients carry no wrapper-visible state beyond
the credentials already recorded here. -/
structure AlpacaState where
  raw : Bool
  paper : Bool
  apiKey : String
  secret : String
  ws : Option WSHandle
deriving DecidableEq, Repr

/-- Embedding of `SimpleAlpaca.__init__`: record the flags and credentials
and leave `self._ws = None`. -/
def initState (apiKey secret : String) (paper raw : Bool) : AlpacaState :=
  { raw := raw, paper := paper, apiKey := apiKey, secret := secret, ws := none }

/-- Embedding of `SimpleAlpaca._ensure_ws`: `if not self._ws:` create the
stream from the stored credentials (a live `StockDataStream` object is
always truthy, so the test is exactly a `None` test). -/
def ensure_ws (s : AlpacaState) : AlpacaState :=
  match s.ws with
  | none => { s with ws := some ⟨s.apiKey, s.secret⟩ }
  | some _ => s

/-- The observable actions `subscribe_price` performs on the stream handle:
one `subscribe_bars(callback, sym)` registration per loop iteration, and
the blocking `run()` call. -/
inductive WSEvent where
  | subscribeBars (symbol : String)
  | run
deriving DecidableEq, Repr

/-- Embedding of `SimpleAlpaca.subscribe_price`: ensure the stream handle
exists, then loop `for sym in symbols: subscribe_bars(callback, sym)`, then
call `run()`.  Returns the updated instance state together with the ordered
trace of stream actions. -/
def subscribe_price (s : AlpacaState) (symbols : List String) :
    AlpacaState × List WSEvent :=
  let s1 := ensure_ws s
  (s1,
    (symbols.foldl (fun evs sym => evs ++ [WSEvent.subscribeBars sym]) [])
      ++ [WSEvent.run])

/-- A Python `datetime` (opaque: only its type matters locally) or a string
still to be parsed, as accepted by `get_historical_bars`. -/
def StrOrDatetime : Type := String ⊕ Unit

/-- The local outcome of `datetime.fromisoformat(x)` when `x` is a string
(a `datetime` is passed through without parsing).  The parser itself is
standard-library code, so its accepted language is abstracted into the
`isoOk` oracle; a failure is the `ValueError` that `fromisoformat` raises. -/
def fromisoErr (isoOk : String → Bool) (x : StrOrDatetime) : Option LocalErr :=
  match x with
  | Sum.inr _ => none
  | Sum.inl s =>
      if isoOk s then none
      else some (LocalErr.valueError ("Invalid isoformat string: " ++ s))

/-- The public methods of `SimpleAlpaca`, each carrying the arguments its
own code inspects before or while delegating to the SDK.  Callback values
and forwarded-only arguments are opaque and omitted. -/
inductive Call where
  | getAccountJson
  | getPositions
  | getPosition (symbol : String)
  | portfolioSummary
  | marketBuy (symbol : String) (qty : Rat) (tif : String ⊕ TimeInForce)
  | marketSell (symbol : String) (qty : Rat) (tif : String ⊕ TimeInForce)
  | limitOrder (symbol : String) (qty limit_price : Rat) (side : String)
      (tif : String ⊕ TimeInForce)
  | stopLoss (symbol : String) (qty stop_price : Rat) (side : String)
      (tif : String ⊕ TimeInForce)
  | trailingStop (symbol : String) (qty : Rat)
      (trail_percent trail_price : Option Rat) (side : String)
      (tif : String ⊕ TimeInForce)
  | submitCustomOrder
  | cancelOrder (order_id : String)
  | cancelAllOrders
  | listOrders (status : String) (limit : Int)
  | getOrder (order_id : String)
  | closePosition (symbol : String)
  | closeAllPositions
  | listAssets (status asset_class : String)
  | getLastQuote (symbol : String)
  | getLastTrade (symbol : String)
  | getLastBar (symbol : String) (timeframe : String ⊕ Int)
  | getHistoricalBars (symbol : String) (timeframe : String ⊕ Int)
      (start : StrOrDatetime) (stop : StrOrDatetime) (limit : Option Int)
  | subscribePrice (symbols : List String)
  | cash
  | buyingPower

/-- Whether a call is `trailing_stop`. -/
def isTrailingStopCall : Call → Bool
  | Call.trailingStop _ _ _ _ _ _ => true
  | _ => false

/-- Whether a call is one of the two bar-fetching market-data methods that
run `_tf_parse` (and, for historical bars, `datetime.fromisoformat`). -/
def isBarFetchCall : Call → Bool
  | Call.getLastBar _ _ => true
  | Call.getHistoricalBars _ _ _ _ _ => true
  | _ => false

/-- Whether a call is `subscribe_price`. -/
def isSubscribePriceCall : Call → Bool
  | Call.subscribePrice _ => true
  | _ => false

/-- The exception, if any, that the wrapper itself raises while processing
the arguments of a public call, before any SDK delegate is reached:
the trailing-stop validation `ValueError`, the `_tf_parse` failures of
`get_last_bar` and `get_historical_bars` (which call it with the default
unit `Minute`), and the `fromisoformat` failures of `get_historical_bars`,
checked in the source order (timeframe, then `start`, then `end`).
Every other method only forwards its arguments, so exceptions reaching the
caller there originate in SDK or transport code. -/
def localErr? (isoOk : String → Bool) : Call → Option LocalErr
  | Call.trailingStop sym qty tp tr side tif =>
      match trailing_stop sym qty tp tr side tif with
      | Except.error e => some e
      | Except.ok _ => none
  | Call.getLastBar _ tf =>
      match _tf_parse tf TimeFrameUnit.Minute with
      | Except.error e => some e
      | Except.ok _ => none
  | Call.getHistoricalBars _ tf start stop _ =>
      match _tf_parse tf TimeFrameUnit.Minute with
      | Except.error e => some e
      | Except.ok _ =>
          match fromisoErr isoOk start with
          | some e => some e
          | none => fromisoErr isoOk stop
  | _ => none

/-- The effect of a public call on the instance attributes: only
`subscribe_price` (through `_ensure_ws`) ever assigns to an attribute after
`__init__`; every other method reads them at most. -/
def stateEffect (s : AlpacaState) : Call → AlpacaState
  | Call.subscribePrice syms => (subscribe_price s syms).1
  | _ => s

/-! ## Helper lemmas -/

/-- Python float truthiness of an optional argument, phrased through
`Option.getD`: the argument is truthy iff it is neither absent nor zero. -/
theorem truthyQ_eq (o : Option Rat) : truthyQ o = true ↔ o.getD 0 ≠ 0 := by
  cases o <;> simp [truthyQ]

/-- A string whose first character is `b` still has first character `b`
after lower-casing. -/
theorem pyStartsWithB_pyLower (s : String) (h : pyStartsWithB s = true) :
    pyStartsWithB (pyLower s) = true := by
  unfold pyStartsWithB pyLower at *
  cases hs : s.toList with
  | nil => rw [hs] at h; simp at h
  | cons c rest =>
      rw [hs] at h
      simp only [String.toList] at *
      simp only [List.map_cons]
      simp at h ⊢
      subst h
      rfl

/-- In raw mode `_as_json` returns every object unchanged. -/
theorem asJson_true (v : PyVal) : asJson true v = v := by
  cases v with
  | pyObj md it ad =>
      cases md with
      | some d => rw [asJson.eq_1]; simp
      | none =>
          cases it with
          | some kvs => rw [asJson.eq_2]; simp
          | none =>
              cases ad with
              | some d => rw [asJson.eq_3]; simp
              | none => rw [asJson.eq_4]; simp
  | pyNone => rw [asJson]; simp
  | pyBool b => rw [asJson]; simp
  | pyInt n => rw [asJson]; simp
  | pyFloat q => rw [asJson]; simp
  | pyStr s => rw [asJson]; simp
  | pyList xs => rw [asJson]; simp
  | pyDict kvs => rw [asJson]; simp

/-- The iterable-flattening branch of `_as_json`, with the bookkeeping
`attach` of the well-founded recursion removed. -/
theorem asJson_iter_eq (kvs : List (String × PyVal))
    (ad : Option (List (String × PyVal))) :
    asJson false (PyVal.pyObj none (some kvs) ad)
      = PyVal.pyDict (kvs.map (fun kv => (kv.1, asJson false kv.2))) := by
  conv_lhs => rw [asJson]
  rw [List.attach_map_val kvs (fun kv => (kv.1, asJson false kv.2))]
  simp

/-- The loop of `subscribe_price` appends one registration per element. -/
theorem subscribe_fold_eq (syms : List String) (acc : List WSEvent) :
    syms.foldl (fun evs sym => evs ++ [WSEvent.subscribeBars sym]) acc
      = acc ++ syms.map WSEvent.subscribeBars := by
  induction syms generalizing acc with
  | nil => simp
  | cons a l ih => simp [ih]

/-- The action trace of `subscribe_price`: all registrations in symbol
order, then the single blocking `run()`. -/
theorem subscribe_trace_shape (s : AlpacaState) (syms : List String) :
    (subscribe_price s syms).2
      = syms.map WSEvent.subscribeBars ++ [WSEvent.run] := by
  simp [subscribe_price, subscribe_fold_eq]

/-- Registration events are injective in the symbol. -/
theorem subscribeBars_injective : Function.Injective WSEvent.subscribeBars := by
  intro a b h
  cases h
  rfl

/-! ## Claim theorems -/

/-- C10: `trailing_stop` raises the validation `ValueError` even when a
price trigger is supplied but equals zero: with `trail_percent = 0.0` and
`trail_price = None` the presence check uses truthiness, so the call raises
although a trail percentage was specified. -/
theorem trailing_stop_zero_percent_raises :
    trailing_stop "MSFT" 2 (some 0) none "sell" (Sum.inr TimeInForce.gtc)
      = Except.error (LocalErr.valueError "Specify trail_percent or trail_price.")
    ∧ some (0 : Rat) ≠ (none : Option Rat) := ⟨rfl, by simp⟩

/-- C1 counterexample: with `trail_percent = 0.0` supplied (not `None`) and
`trail_price = None`, `trailing_stop` raises locally instead of submitting,
so supplying one price-trigger argument does not suffice for submission. -/
theorem trailing_stop_zero_trail_cex :
    trailing_stop "AAPL" 1 (some 0) none "sell" (Sum.inr TimeInForce.gtc)
      = Except.error (LocalErr.valueError "Specify trail_percent or trail_price.")
    ∧ some (0 : Rat) ≠ (none : Option Rat) := ⟨rfl, by simp⟩

/-- C1 (amended): `trailing_stop` raises its validation `ValueError`
exactly when each price-trigger argument is absent or zero (Python
truthiness); when at least one of them is supplied and nonzero it instead
builds and submits the trailing-stop order request. -/
theorem trailing_stop_presence_check (symbol : String) (qty : Rat)
    (tp tr : Option Rat) (side : String) (tif : String ⊕ TimeInForce) :
    (trailing_stop symbol qty tp tr side tif
        = Except.error (LocalErr.valueError "Specify trail_percent or trail_price.")
      ↔ tp.getD 0 = 0 ∧ tr.getD 0 = 0) ∧
    (tp.getD 0 ≠ 0 ∨ tr.getD 0 ≠ 0 →
      trailing_stop symbol qty tp tr side tif = Except.ok
        { symbol := symbol
          qty := qty
          side := _side side
          type := OrderType.TRAILING_STOP
          trail_percent := tp
          trail_price := tr
          time_in_force := _tif tif }) := by
  have hc : (truthyQ tp || truthyQ tr) = true ↔ (tp.getD 0 ≠ 0 ∨ tr.getD 0 ≠ 0) := by
    simp [truthyQ_eq]
  unfold trailing_stop
  by_cases h : (truthyQ tp || truthyQ tr) = true
  · rw [h]
    have := hc.mp h
    constructor
    · simp
      intro h1 h2
      rcases this with h3 | h3 <;> simp_all
    · intro _
      rfl
  · rw [Bool.not_eq_true] at h
    rw [h]
    have hgetd : tp.getD 0 = 0 ∧ tr.getD 0 = 0 := by
      by_contra hcon
      have : tp.getD 0 ≠ 0 ∨ tr.getD 0 ≠ 0 := by tauto
      simp [hc.mpr this] at h
    constructor
    · simp [hgetd]
    · intro hne
      rcases hne with h1 | h1 <;> simp_all

/-- C1 witness: a nonzero trail percentage makes `trailing_stop` submit. -/
theorem trailing_stop_presence_check_witness :
    Option.getD (some (5 : Rat)) 0 ≠ 0 ∧
    trailing_stop "AAPL" 1 (some 5) none "sell" (Sum.inr TimeInForce.gtc)
      = Except.ok
        { symbol := "AAPL"
          qty := 1
          side := _side "sell"
          type := OrderType.TRAILING_STOP
          trail_percent := some 5
          trail_price := none
          time_in_force := _tif (Sum.inr TimeInForce.gtc) } :=
  ⟨by norm_num,
    (trailing_stop_presence_check "AAPL" 1 (some 5) none "sell"
      (Sum.inr TimeInForce.gtc)).2 (Or.inl (by norm_num))⟩

/-- C2 counterexample: the string `Buy` does not start with `b`, yet
`_side` maps it to the buy side, because the code lower-cases first. -/
theorem side_coercion_case_cex :
    _side "Buy" = OrderSide.BUY ∧ pyStartsWithB "Buy" = false := ⟨rfl, rfl⟩

/-- C2 (amended): `_side` maps every string whose lower-casing starts with
`b` to the buy side and every other string to the sell side; in particular
every string that starts with `b` is mapped to the buy side. -/
theorem side_coercion_lowercased (s : String) :
    (pyStartsWithB (pyLower s) = true → _side s = OrderSide.BUY) ∧
    (pyStartsWithB (pyLower s) = false → _side s = OrderSide.SELL) ∧
    (pyStartsWithB s = true → _side s = OrderSide.BUY) := by
  refine ⟨?_, ?_, ?_⟩ <;> intro h
  · simp [_side, h]
  · simp [_side, h]
  · simp [_side, pyStartsWithB_pyLower s h]

/-- C2 witness: `buy` lower-cases to a string starting with `b` and is
mapped to the buy side. -/
theorem side_coercion_lowercased_witness :
    pyStartsWithB (pyLower "buy") = true ∧ _side "buy" = OrderSide.BUY :=
  ⟨rfl, (side_coercion_lowercased "buy").1 rfl⟩

/-- C3 counterexample: the unit token of `1Mint` is `mint`, which is not a
key of the unit table, yet `_tf_parse` accepts the string as one minute
instead of rejecting it, because only the first three characters of the
token are looked up. -/
theorem tf_parse_unrecognized_token_cex :
    _tf_parse (Sum.inl "1Mint") TimeFrameUnit.Minute
      = Except.ok ⟨1, TimeFrameUnit.Minute⟩ ∧
    unitToken "1Mint" = "mint" ∧
    tfUnitTable (unitToken "1Mint") = none := ⟨rfl, rfl, rfl⟩

/-- C3 (amended): `_tf_parse` maps `1Min`, `5Min`, `1Day` to the pairs
(1, Minute), (5, Minute), (1, Day); it fails on every string the first
three characters of whose lower-cased unit token are not a key of the unit
table, and on every string with no digit. -/
theorem tf_parse_known_forms_and_rejection :
    (_tf_parse (Sum.inl "1Min") TimeFrameUnit.Minute
        = Except.ok ⟨1, TimeFrameUnit.Minute⟩) ∧
    (_tf_parse (Sum.inl "5Min") TimeFrameUnit.Minute
        = Except.ok ⟨5, TimeFrameUnit.Minute⟩) ∧
    (_tf_parse (Sum.inl "1Day") TimeFrameUnit.Minute
        = Except.ok ⟨1, TimeFrameUnit.Day⟩) ∧
    (∀ s u, tfUnitTable (String.mk ((unitToken s).toList.take 3)) = none →
        ∃ e, _tf_parse (Sum.inl s) u = Except.error e) ∧
    (∀ s u, (s.toList.filter Char.isDigit).isEmpty = true →
        _tf_parse (Sum.inl s) u
          = Except.error (LocalErr.valueError "invalid literal for int() with base 10")) := by
  refine ⟨rfl, rfl, rfl, ?_, ?_⟩
  · intro s u h
    simp only [_tf_parse]
    by_cases hds : (s.toList.filter Char.isDigit).isEmpty = true
    · rw [if_pos hds]
      exact ⟨_, rfl⟩
    · rw [if_neg hds, h]
      exact ⟨_, rfl⟩
  · intro s u h
    simp only [_tf_parse]
    rw [if_pos h]

/-- C3 witness: `1Sec` has a unit token whose three-character key is not in
the table, and `_tf_parse` rejects it; `Sec1` has digits but the same
failing key. -/
theorem tf_parse_known_forms_and_rejection_witness :
    tfUnitTable (String.mk ((unitToken "1Sec").toList.take 3)) = none ∧
    (∃ e, _tf_parse (Sum.inl "1Sec") TimeFrameUnit.Minute = Except.error e) ∧
    (List.filter Char.isDigit (String.toList "Min")).isEmpty = true ∧
    _tf_parse (Sum.inl "Min") TimeFrameUnit.Minute
      = Except.error (LocalErr.valueError "invalid literal for int() with base 10") :=
  ⟨rfl,
    (tf_parse_known_forms_and_rejection).2.2.2.1 "1Sec" TimeFrameUnit.Minute rfl,
    rfl,
    (tf_parse_known_forms_and_rejection).2.2.2.2 "Min" TimeFrameUnit.Minute rfl⟩

/-- C6: `_tif` returns an already-typed `TimeInForce` unchanged, and
converts a string by lower-casing it and passing it to the enum lookup. -/
theorem tif_coercion :
    (∀ t, _tif (Sum.inr t) = some t) ∧
    (∀ s, _tif (Sum.inl s) = TimeInForce.ofValue (pyLower s)) ∧
    _tif (Sum.inl "GTC") = some TimeInForce.gtc :=
  ⟨fun _ => rfl, fun _ => rfl, rfl⟩

/-- C5: in non-raw mode `_as_json` passes primitives and containers
through unchanged; on a structured object it prefers the `model_dump`
result when that accessor exists, otherwise flattens the iterable form into
a dict (recursing on the values), otherwise returns the attribute
dictionary, and returns the object unchanged when none of these apply. -/
theorem as_json_normalization :
    (asJson false PyVal.pyNone = PyVal.pyNone) ∧
    (∀ b, asJson false (PyVal.pyBool b) = PyVal.pyBool b) ∧
    (∀ n, asJson false (PyVal.pyInt n) = PyVal.pyInt n) ∧
    (∀ q, asJson false (PyVal.pyFloat q) = PyVal.pyFloat q) ∧
    (∀ s, asJson false (PyVal.pyStr s) = PyVal.pyStr s) ∧
    (∀ xs, asJson false (PyVal.pyList xs) = PyVal.pyList xs) ∧
    (∀ kvs, asJson false (PyVal.pyDict kvs) = PyVal.pyDict kvs) ∧
    (∀ d it ad, asJson false (PyVal.pyObj (some d) it ad) = d) ∧
    (∀ kvs ad, asJson false (PyVal.pyObj none (some kvs) ad)
        = PyVal.pyDict (kvs.map (fun kv => (kv.1, asJson false kv.2)))) ∧
    (∀ d, asJson false (PyVal.pyObj none none (some d)) = PyVal.pyDict d) ∧
    (asJson false (PyVal.pyObj none none none)
        = PyVal.pyObj none none none) := by
  refine ⟨?_, ?_, ?_, ?_, ?_, ?_, ?_, ?_, ?_, ?_, ?_⟩
  · rw [asJson]; simp
  · intro b; rw [asJson]; simp
  · intro n; rw [asJson]; simp
  · intro q; rw [asJson]; simp
  · intro s; rw [asJson]; simp
  · intro xs; rw [asJson]; simp
  · intro kvs; rw [asJson]; simp
  · intro d it ad; rw [asJson.eq_1]; simp
  · intro kvs ad; exact asJson_iter_eq kvs ad
  · intro d; rw [asJson.eq_3]; simp
  · rw [asJson.eq_4]; simp

/-- C9: constructed with `raw_data = True`, `_as_json` is the identity, so
both single responses and response lists come back from the wrapper exactly
as the SDK produced them. -/
theorem raw_mode_identity :
    (∀ v, asJson true v = v) ∧
    (∀ rs : List PyVal, rs.map (asJson true) = rs) := by
  refine ⟨asJson_true, ?_⟩
  intro rs
  induction rs with
  | nil => rfl
  | cons a l ih => simp [asJson_true, ih]

/-- C7: the streaming handle starts out absent, the first `subscribe_price`
call creates it from the stored credentials, later calls and every other
public method leave an existing handle exactly as it is, and no method ever
clears it. -/
theorem ws_handle_lifecycle :
    (∀ k sec p r, (initState k sec p r).ws = none) ∧
    (∀ s syms, s.ws = none →
        ((subscribe_price s syms).1).ws = some ⟨s.apiKey, s.secret⟩) ∧
    (∀ s syms h, s.ws = some h → ((subscribe_price s syms).1).ws = some h) ∧
    (∀ s c, isSubscribePriceCall c = false → stateEffect s c = s) ∧
    (∀ s c h, s.ws = some h → (stateEffect s c).ws = some h) := by
  refine ⟨fun _ _ _ _ => rfl, ?_, ?_, ?_, ?_⟩
  · intro s syms hws
    simp [subscribe_price, ensure_ws, hws]
  · intro s syms h hws
    simp [subscribe_price, ensure_ws, hws]
  · intro s c hc
    cases c <;> simp_all [stateEffect, isSubscribePriceCall]
  · intro s c h hws
    cases c <;> simp_all [stateEffect, subscribe_price, ensure_ws]

/-- C7 witness: concrete creation, reuse and preservation of the handle. -/
theorem ws_handle_lifecycle_witness :
    (initState "k" "s" true false).ws = none ∧
    ((subscribe_price (initState "k" "s" true false) ["AAPL"]).1).ws
      = some ⟨"k", "s"⟩ ∧
    ((subscribe_price
        { raw := false, paper := true, apiKey := "k", secret := "s",
          ws := some ⟨"k", "s"⟩ } ["AAPL"]).1).ws = some ⟨"k", "s"⟩ ∧
    stateEffect (initState "k" "s" true false) Call.cash
      = initState "k" "s" true false ∧
    (stateEffect
        { raw := false, paper := true, apiKey := "k", secret := "s",
          ws := some ⟨"k", "s"⟩ } Call.cash).ws = some ⟨"k", "s"⟩ := by
  have H := ws_handle_lifecycle
  exact ⟨H.1 "k" "s" true false,
    H.2.1 _ ["AAPL"] rfl,
    H.2.2.1 _ ["AAPL"] ⟨"k", "s"⟩ rfl,
    H.2.2.2.1 _ Call.cash rfl,
    H.2.2.2.2 _ Call.cash ⟨"k", "s"⟩ rfl⟩

/-- C8: for every symbol iterable, `subscribe_price` emits one bar
registration per occurrence of each symbol and a single blocking `run()`,
and the `run()` is the last action, after all registrations. -/
theorem subscribe_price_trace (s : AlpacaState) (syms : List String) :
    ((subscribe_price s syms).2.count WSEvent.run = 1) ∧
    (∀ sym, (subscribe_price s syms).2.count (WSEvent.subscribeBars sym)
        = syms.count sym) ∧
    ((subscribe_price s syms).2.getLast? = some WSEvent.run) := by
  rw [subscribe_trace_shape]
  refine ⟨?_, ?_, ?_⟩
  · rw [List.count_append]
    have h0 : (syms.map WSEvent.subscribeBars).count WSEvent.run = 0 := by
      rw [List.count_eq_zero]
      simp
    rw [h0]
    rfl
  · intro sym
    rw [List.count_append]
    rw [List.count_map_of_injective syms WSEvent.subscribeBars
      subscribeBars_injective sym]
    have h1 : ([WSEvent.run].count (WSEvent.subscribeBars sym)) = 0 := by
      rw [List.count_eq_zero]
      simp
    rw [h1]
    simp
  · exact List.getLast?_concat _

/-- C4 counterexample: `get_last_bar("AAPL", "1Sec")` makes the wrapper
raise a local `KeyError` inside `_tf_parse`, an error that is not the
trailing-stop validation failure and comes from wrapper code, not from the
SDK. -/
theorem local_error_surface_cex :
    localErr? (fun _ => true) (Call.getLastBar "AAPL" (Sum.inl "1Sec"))
      = some (LocalErr.keyError "sec") ∧
    LocalErr.keyError "sec"
      ≠ LocalErr.valueError "Specify trail_percent or trail_price." ∧
    isTrailingStopCall (Call.getLastBar "AAPL" (Sum.inl "1Sec")) = false :=
  ⟨rfl, by simp, rfl⟩

/-- C4 (amended): across the public surface, the only calls that raise
locally are `trailing_stop` (whose local error is always the validation
`ValueError`) and the two bar-fetching market-data methods (whose local
errors come from `_tf_parse` and from ISO-datetime parsing); every other
call raises nothing locally, so errors there originate in the wrapped SDK
or the remote service. -/
theorem local_error_surface (isoOk : String → Bool) (c : Call) (e : LocalErr)
    (h : localErr? isoOk c = some e) :
    (isTrailingStopCall c = true
      ∧ e = LocalErr.valueError "Specify trail_percent or trail_price.")
    ∨ isBarFetchCall c = true := by
  cases c
  case trailingStop sym qty tp tr side tif =>
      left
      refine ⟨rfl, ?_⟩
      simp only [localErr?] at h
      cases htr : trailing_stop sym qty tp tr side tif with
      | error er =>
          rw [htr] at h
          simp at h
          unfold trailing_stop at htr
          by_cases hb : (!(truthyQ tp || truthyQ tr)) = true
          · rw [if_pos hb] at htr
            cases htr
            exact h.symm
          · rw [if_neg hb] at htr
            cases htr
      | ok req =>
          rw [htr] at h
          simp at h
  case getLastBar sym tf => right; rfl
  case getHistoricalBars sym tf start stop lim => right; rfl
  all_goals (simp only [localErr?] at h; simp at h)

/-- C4 witness: a trailing-stop call with both triggers absent produces the
validation failure, the one local error its branch allows. -/
theorem local_error_surface_witness :
    localErr? (fun _ => true)
        (Call.trailingStop "AAPL" 1 none none "sell" (Sum.inr TimeInForce.gtc))
      = some (LocalErr.valueError "Specify trail_percent or trail_price.") ∧
    ((isTrailingStopCall
        (Call.trailingStop "AAPL" 1 none none "sell" (Sum.inr TimeInForce.gtc))
          = true
      ∧ LocalErr.valueError "Specify trail_percent or trail_price."
          = LocalErr.valueError "Specify trail_percent or trail_price.")
     ∨ isBarFetchCall
        (Call.trailingStop "AAPL" 1 none none "sell" (Sum.inr TimeInForce.gtc))
          = true) :=
  ⟨rfl, local_error_surface (fun _ => true) _ _ rfl⟩

end SimpleAlpaca
